import Mathlib

/-!
Verification of the authz repository: a shallow embedding of the
authorization decision engine, the seat-capacity allocator contract, the
grpc transport helpers and the user-directory paging producer, with
theorems settling the frozen claims about them.
-/

/-! ## Domain model (src: authz/domain) -/

/-- Embeds `domain.Resource` (fields Type, ID); `Type` is rendered `rtype`. -/
structure Resource where
  rtype : String
  id : String
  deriving DecidableEq, Repr

/-- Embeds `domain.Subject` (SubjectID, Enabled). -/
structure Subject where
  subjectID : String
  enabled : Bool
  deriving DecidableEq, Repr

/-- Embeds `domain.Principal` (ID, DisplayName). -/
structure Principal where
  id : String
  displayName : String
  deriving DecidableEq, Repr

/-! ## Relationship store client, seat allocation (spec §4.1)

The SpiceDB client implementation is not part of the sources; only its
integration tests are (`src/unnamed/part_001`).  The definitions below are
therefore modelled from the spec. -/

/-- Modelled from the spec: the error taxonomy of §7 restricted to the kinds
the store client itself produces (the client implementation is missing from
the sources). -/
inductive StoreError
  | alreadyAssigned
  | notAssigned
  | capacityExceeded
  | storeUnavailable
  deriving DecidableEq, Repr

/-- Modelled from the spec: the state of one license `(orgID, serviceID)` key —
MaxSeats as provisioned capacity and the set of subjects holding the
"assigned" relation (the client implementation is missing from the sources). -/
structure LicenseState where
  maxSeats : Nat
  assigned : Finset String
  deriving DecidableEq

/-- Modelled from the spec: InUse is the count of "assigned" edges on the
license resource. -/
def LicenseState.inUse (st : LicenseState) : Nat := st.assigned.card

/-- Modelled from the spec: `GetAssigned` returns all subjects currently
holding the "assigned" relation (a set, order unspecified). -/
def GetAssigned (st : LicenseState) : Finset String := st.assigned

/-- Modelled from the spec: `AssignSeats` adds an "assigned" edge for every
subject of the batch; all-or-nothing on an already-assigned subject,
capacity-safe against MaxSeats (the client implementation is missing from the
sources). -/
def AssignSeats (subjects : List String) (st : LicenseState) :
    Except StoreError LicenseState :=
  if subjects.any (fun s => s ∈ st.assigned) then
    .error .alreadyAssigned
  else if st.maxSeats < st.inUse + subjects.length then
    .error .capacityExceeded
  else
    .ok { st with assigned := st.assigned ∪ subjects.toFinset }

/-- Modelled from the spec: `UnAssignSeats` removes the "assigned" edge of
every subject of the batch; all-or-nothing on a not-assigned subject (the
client implementation is missing from the sources). -/
def UnAssignSeats (subjects : List String) (st : LicenseState) :
    Except StoreError LicenseState :=
  if subjects.any (fun s => s ∉ st.assigned) then
    .error .notAssigned
  else
    .ok { st with assigned := st.assigned \ subjects.toFinset }

/-- One successful mutation of the license state by the store client. -/
inductive SeatStep : LicenseState → LicenseState → Prop
  | assign (subjects : List String) (st st' : LicenseState) :
      AssignSeats subjects st = .ok st' → SeatStep st st'
  | unassign (subjects : List String) (st st' : LicenseState) :
      UnAssignSeats subjects st = .ok st' → SeatStep st st'

/-- States reachable from an initial license state by sequences of successful
`AssignSeats` / `UnAssignSeats` calls (a failed call leaves the state as is). -/
inductive SeatReachable (init : LicenseState) : LicenseState → Prop
  | refl : SeatReachable init init
  | step {st st' : LicenseState} :
      SeatReachable init st → SeatStep st st' → SeatReachable init st'

/-- Seed license of the test scenarios: MaxSeats=10, u1 assigned (InUse=1). -/
def seedLicense : LicenseState := { maxSeats := 10, assigned := {"u1"} }

/-- Runs a sequence of `AssignSeats` batches left to right, stopping at the
first error, as the TestRapidAssignments loop does. -/
def assignBatches (batches : List (List String)) (st : LicenseState) :
    Except StoreError LicenseState :=
  batches.foldlM (fun s b => AssignSeats b s) st

/-- The nine single-subject batches u2..u10 of TestRapidAssignments. -/
def rapidBatches : List (List String) :=
  [["u2"], ["u3"], ["u4"], ["u5"], ["u6"], ["u7"], ["u8"], ["u9"], ["u10"]]

/-- Observable license state after a store call: the new state on success, the
input state on failure (a failed call writes no edges). -/
def stateAfter (st : LicenseState) : Except StoreError LicenseState → LicenseState
  | .ok st' => st'
  | .error _ => st

/-- Inversion of a successful `AssignSeats` call: no subject of the batch was
assigned, the batch fits the capacity, and the result adds the batch. -/
theorem assignSeats_ok_cases {subjects : List String} {st st' : LicenseState}
    (h : AssignSeats subjects st = .ok st') :
    (∀ x ∈ subjects, x ∉ st.assigned) ∧
    st.inUse + subjects.length ≤ st.maxSeats ∧
    st' = { st with assigned := st.assigned ∪ subjects.toFinset } := by
  unfold AssignSeats at h
  split at h
  · exact absurd h (by simp)
  · split at h
    · exact absurd h (by simp)
    · refine ⟨?_, by omega, by injection h with h; exact h.symm⟩
      intro x hx hmem
      rename_i hany _
      exact hany (by simpa using ⟨x, hx, hmem⟩)

/-- Inversion of a successful `UnAssignSeats` call: every subject of the batch
was assigned, and the result removes the batch. -/
theorem unAssignSeats_ok_cases {subjects : List String} {st st' : LicenseState}
    (h : UnAssignSeats subjects st = .ok st') :
    (∀ x ∈ subjects, x ∈ st.assigned) ∧
    st' = { st with assigned := st.assigned \ subjects.toFinset } := by
  unfold UnAssignSeats at h
  split at h
  · exact absurd h (by simp)
  · refine ⟨?_, by injection h with h; exact h.symm⟩
    intro x hx
    rename_i hany
    by_contra hmem
    exact hany (by simpa using ⟨x, hx, hmem⟩)

/-- A successful store mutation preserves the capacity invariant. -/
theorem seatStep_inv {st st' : LicenseState} (hs : SeatStep st st')
    (h : st.inUse ≤ st.maxSeats) : st'.inUse ≤ st'.maxSeats := by
  cases hs with
  | assign subs _ _ ha =>
      obtain ⟨-, hcap, rfl⟩ := assignSeats_ok_cases ha
      simp only [LicenseState.inUse] at *
      calc (st.assigned ∪ subs.toFinset).card
          ≤ st.assigned.card + subs.toFinset.card := Finset.card_union_le _ _
        _ ≤ st.assigned.card + subs.length :=
            Nat.add_le_add_left (List.toFinset_card_le subs) _
        _ ≤ st.maxSeats := hcap
  | unassign subs _ _ hu =>
      obtain ⟨-, rfl⟩ := unAssignSeats_ok_cases hu
      simp only [LicenseState.inUse] at *
      exact le_trans (Finset.card_le_card Finset.sdiff_subset) h

/-- The capacity invariant holds in every state reachable from an initial
state that satisfies it. -/
theorem seatReachable_le {init st : LicenseState} (h : SeatReachable init st)
    (h0 : init.inUse ≤ init.maxSeats) : st.inUse ≤ st.maxSeats := by
  induction h with
  | refl => exact h0
  | step _ hs ih => exact seatStep_inv hs ih

/-- C1: from the seed state (MaxSeats=10, InUse=1, u1 assigned), every state
reachable by AssignSeats / UnAssignSeats calls keeps InUse ≤ MaxSeats, and
sequentially assigning u2..u10 as nine single-subject batches succeeds and
leaves InUse = 10 = MaxSeats. -/
theorem seat_capacity_invariant :
    (∀ st : LicenseState, SeatReachable seedLicense st → st.inUse ≤ st.maxSeats) ∧
    (assignBatches rapidBatches seedLicense).map
      (fun st => (st.inUse, st.maxSeats)) = .ok (10, 10) :=
  ⟨fun _ h => seatReachable_le h (by decide), rfl⟩

/-- Witness for C1: the invariant applied to the seed state itself. -/
theorem seat_capacity_invariant_witness :
    seedLicense.inUse ≤ seedLicense.maxSeats :=
  seat_capacity_invariant.1 seedLicense SeatReachable.refl

/-- C2: a batch with an already-assigned subject makes AssignSeats fail, and
a batch with a not-assigned subject makes UnAssignSeats fail; in both cases
InUse and GetAssigned are unchanged after the call. -/
theorem batch_precondition_all_or_nothing (subjects : List String)
    (st : LicenseState) :
    ((∃ x ∈ subjects, x ∈ st.assigned) →
      AssignSeats subjects st = .error .alreadyAssigned ∧
      (stateAfter st (AssignSeats subjects st)).inUse = st.inUse ∧
      GetAssigned (stateAfter st (AssignSeats subjects st)) = GetAssigned st) ∧
    ((∃ x ∈ subjects, x ∉ st.assigned) →
      UnAssignSeats subjects st = .error .notAssigned ∧
      (stateAfter st (UnAssignSeats subjects st)).inUse = st.inUse ∧
      GetAssigned (stateAfter st (UnAssignSeats subjects st)) = GetAssigned st) := by
  constructor
  · rintro ⟨x, hx, hmem⟩
    have h : AssignSeats subjects st = .error .alreadyAssigned := by
      unfold AssignSeats
      rw [if_pos (by simpa using ⟨x, hx, hmem⟩)]
    exact ⟨h, by rw [h]; rfl, by rw [h]; rfl⟩
  · rintro ⟨x, hx, hmem⟩
    have h : UnAssignSeats subjects st = .error .notAssigned := by
      unfold UnAssignSeats
      rw [if_pos (by simpa using ⟨x, hx, hmem⟩)]
    exact ⟨h, by rw [h]; rfl, by rw [h]; rfl⟩

/-- Witness for C2: assigning already-assigned u1 and unassigning a
never-assigned subject both fail on the seed state. -/
theorem batch_precondition_all_or_nothing_witness :
    AssignSeats ["u1"] seedLicense = .error .alreadyAssigned ∧
    UnAssignSeats ["not_assigned"] seedLicense = .error .notAssigned :=
  ⟨((batch_precondition_all_or_nothing ["u1"] seedLicense).1
      ⟨"u1", by decide, by decide⟩).1,
   ((batch_precondition_all_or_nothing ["not_assigned"] seedLicense).2
      ⟨"not_assigned", by decide, by decide⟩).1⟩

/-- C3: on a batch of distinct, all-unassigned subjects that fits the spare
capacity, AssignSeats succeeds and raises InUse by exactly the batch length;
on a batch of distinct, all-assigned subjects, UnAssignSeats succeeds and
lowers InUse by exactly the batch length. -/
theorem batch_success_inuse_delta (subjects : List String) (st : LicenseState)
    (hnd : subjects.Nodup) :
    ((∀ x ∈ subjects, x ∉ st.assigned) →
      st.inUse + subjects.length ≤ st.maxSeats →
      ∃ st', AssignSeats subjects st = .ok st' ∧
        st'.inUse = st.inUse + subjects.length) ∧
    ((∀ x ∈ subjects, x ∈ st.assigned) →
      ∃ st', UnAssignSeats subjects st = .ok st' ∧
        st'.inUse + subjects.length = st.inUse) := by
  constructor
  · intro hfresh hcap
    refine ⟨{ st with assigned := st.assigned ∪ subjects.toFinset }, ?_, ?_⟩
    · unfold AssignSeats
      rw [if_neg, if_neg]
      · omega
      · simp only [List.any_eq_true, decide_eq_true_eq, not_exists, not_and]
        exact hfresh
    · show (st.assigned ∪ subjects.toFinset).card = st.assigned.card + subjects.length
      rw [Finset.card_union_of_disjoint, List.toFinset_card_of_nodup hnd]
      rw [Finset.disjoint_right]
      intro a ha
      exact hfresh a (List.mem_toFinset.mp ha)
  · intro hheld
    have hsub : subjects.toFinset ⊆ st.assigned := by
      intro a ha
      exact hheld a (List.mem_toFinset.mp ha)
    refine ⟨{ st with assigned := st.assigned \ subjects.toFinset }, ?_, ?_⟩
    · unfold UnAssignSeats
      rw [if_neg]
      simp only [List.any_eq_true, decide_eq_true_eq, not_exists, not_and, not_not]
      exact hheld
    · show (st.assigned \ subjects.toFinset).card + subjects.length = st.assigned.card
      rw [Finset.card_sdiff hsub, List.toFinset_card_of_nodup hnd]
      have hle : subjects.length ≤ st.assigned.card := by
        rw [← List.toFinset_card_of_nodup hnd]
        exact Finset.card_le_card hsub
      omega

/-- Witness for C3: assigning the fresh batch [u100, u101] to the seed state
raises InUse from 1 to 3, and unassigning [u1] lowers it from 1 to 0. -/
theorem batch_success_inuse_delta_witness :
    (∃ st', AssignSeats ["u100", "u101"] seedLicense = .ok st' ∧
      st'.inUse = seedLicense.inUse + 2) ∧
    (∃ st', UnAssignSeats ["u1"] seedLicense = .ok st' ∧
      st'.inUse + 1 = seedLicense.inUse) :=
  ⟨(batch_success_inuse_delta ["u100", "u101"] seedLicense (by decide)).1
      (by decide) (by decide),
   (batch_success_inuse_delta ["u1"] seedLicense (by decide)).2 (by decide)⟩

/-- C4: assigning an unassigned subject and immediately unassigning it, in a
state with spare capacity, restores InUse and leaves the subject out of
GetAssigned. -/
theorem assign_unassign_roundtrip (x : String) (st : LicenseState)
    (hx : x ∉ st.assigned) (hcap : st.inUse < st.maxSeats) :
    ∃ st1 st2, AssignSeats [x] st = .ok st1 ∧ UnAssignSeats [x] st1 = .ok st2 ∧
      st2.inUse = st.inUse ∧ x ∉ GetAssigned st2 := by
  refine ⟨{ st with assigned := st.assigned ∪ [x].toFinset },
    { st with assigned := (st.assigned ∪ [x].toFinset) \ [x].toFinset }, ?_, ?_, ?_⟩
  · unfold AssignSeats
    rw [if_neg, if_neg]
    · simp only [List.length_cons, List.length_nil]
      omega
    · simp [hx]
  · unfold UnAssignSeats
    rw [if_neg]
    simp
  · have hset : (st.assigned ∪ [x].toFinset) \ [x].toFinset = st.assigned := by
      ext a
      simp only [Finset.mem_sdiff, Finset.mem_union, List.toFinset_cons,
        List.toFinset_nil, insert_emptyc_eq, Finset.mem_singleton]
      constructor
      · rintro ⟨ha | ha, hne⟩
        · exact ha
        · exact absurd ha hne
      · intro ha
        exact ⟨Or.inl ha, fun he => hx (he ▸ ha)⟩
    constructor
    · show ((st.assigned ∪ [x].toFinset) \ [x].toFinset).card = st.assigned.card
      rw [hset]
    · show x ∉ (st.assigned ∪ [x].toFinset) \ [x].toFinset
      rw [hset]
      exact hx

/-- Witness for C4: the round trip on u2 over the seed state. -/
theorem assign_unassign_roundtrip_witness :
    ∃ st1 st2, AssignSeats ["u2"] seedLicense = .ok st1 ∧
      UnAssignSeats ["u2"] st1 = .ok st2 ∧
      st2.inUse = seedLicense.inUse ∧ "u2" ∉ GetAssigned st2 :=
  assign_unassign_roundtrip "u2" seedLicense (by decide) (by decide)

/-! ## Access check (spec §4.1 CheckAccess, seed schema of §8)

The store client's CheckAccess is also missing from the sources; it is
modelled from the spec with the set of granted (subject, operation, resource)
triples standing for "a graph path exists granting operation from subject to
resource". -/

/-- Modelled from the spec: the relationship store as seen by CheckAccess —
an availability flag (store/transport failures) and the set of triples for
which a granting graph path exists (the client implementation is missing from
the sources). -/
structure AccessStore where
  available : Bool
  granted : List (String × String × Resource)
  deriving DecidableEq

/-- Modelled from the spec: `CheckAccess` evaluates whether a granting path
exists; an error is produced only on a store/transport failure, never for an
unknown subject or resource. -/
def CheckAccess (subjectID operation : String) (resource : Resource)
    (st : AccessStore) : Except StoreError Bool :=
  if st.available then
    .ok (decide ((subjectID, operation, resource) ∈ st.granted))
  else
    .error .storeUnavailable

/-- A subject is known to the store when it appears in some granted triple. -/
def subjectKnown (st : AccessStore) (subjectID : String) : Bool :=
  st.granted.any (fun e => e.1 == subjectID)

/-- A resource is known to the store when it appears in some granted triple. -/
def resourceKnown (st : AccessStore) (resource : Resource) : Bool :=
  st.granted.any (fun e => decide (e.2.2 = resource))

/-- Seed access data of the test scenarios: u1 may "access" license
o1/smarts, and nothing else is granted. -/
def seedAccessStore : AccessStore :=
  { available := true,
    granted := [("u1", "access", ⟨"license", "o1/smarts"⟩)] }

/-- C5: with the store reachable, a subject or resource absent from the store
yields Denied with no error; an error arises only from a store failure; the
three seed checks behave as the spec lists. -/
theorem checkAccess_absent_denied :
    (∀ (st : AccessStore) (sub op : String) (res : Resource),
      st.available = true →
      subjectKnown st sub = false ∨ resourceKnown st res = false →
      CheckAccess sub op res st = .ok false) ∧
    (∀ (st : AccessStore) (sub op : String) (res : Resource) (e : StoreError),
      CheckAccess sub op res st = .error e → st.available = false) ∧
    CheckAccess "u1" "access" ⟨"license", "o1/smarts"⟩ seedAccessStore
      = .ok true ∧
    CheckAccess "u1" "access" ⟨"license", "o1/doesnotexist"⟩ seedAccessStore
      = .ok false ∧
    CheckAccess "doesnotexist" "access" ⟨"license", "o1/smarts"⟩ seedAccessStore
      = .ok false := by
  refine ⟨?_, ?_, rfl, rfl, rfl⟩
  · intro st sub op res hav habs
    unfold CheckAccess
    rw [if_pos hav]
    have hnot : (sub, op, res) ∉ st.granted := by
      intro hmem
      rcases habs with h | h
      · have : subjectKnown st sub = true := by
          unfold subjectKnown
          exact List.any_eq_true.mpr ⟨_, hmem, by simp⟩
        rw [h] at this
        exact Bool.false_ne_true this
      · have : resourceKnown st res = true := by
          unfold resourceKnown
          exact List.any_eq_true.mpr ⟨_, hmem, by simp⟩
        rw [h] at this
        exact Bool.false_ne_true this
    simp [hnot]
  · intro st sub op res e h
    unfold CheckAccess at h
    by_cases hav : st.available
    · rw [if_pos hav] at h
      exact absurd h (by simp)
    · exact Bool.of_not_eq_true hav

/-- Witness for C5: the unknown subject "doesnotexist" is denied on the seed
store, via the general absent-subject part of the theorem. -/
theorem checkAccess_absent_denied_witness :
    CheckAccess "doesnotexist" "access" ⟨"license", "o1/smarts"⟩ seedAccessStore
      = .ok false :=
  checkAccess_absent_denied.1 seedAccessStore "doesnotexist" "access"
    ⟨"license", "o1/smarts"⟩ rfl (Or.inl rfl)

/-! ## Grpc transport (src: the grpc server file concatenated into
src/application/AccessAppService.go) -/

/-- Embeds `convertTokenToPrincipalID`: the raw token is used verbatim (the
placeholder for token introspection). -/
def convertTokenToPrincipalID (token : String) : String := token

/-- The two metadata field names tried by the requestor-identity loop, in
source order. -/
def requestorMetadataKeys : List String :=
  ["grpcgateway-authorization", "bearer-token"]

/-- The loop body of `getRequestorIdentityFromGrpcContext`: try each field
name in order; on the first one with at least one header value, convert its
first value; otherwise fall through to the empty identity. -/
def requestorIdentityLoop (get : String → List String) : List String → String
  | [] => ""
  | name :: rest =>
    match get name with
    | h :: _ => convertTokenToPrincipalID h
    | [] => requestorIdentityLoop get rest

/-- Embeds `getRequestorIdentityFromGrpcContext`, with the incoming request
metadata abstracted as the function `get` from field name to header values. -/
def getRequestorIdentityFromGrpcContext (get : String → List String) : String :=
  requestorIdentityLoop get requestorMetadataKeys

/-- C6: the requestor identity comes from "grpcgateway-authorization" first
and "bearer-token" second, the first field carrying any value winning, and
the raw first value of that field is the identity verbatim; with neither
present the identity is empty. -/
theorem requestor_identity_extraction (get : String → List String) :
    (∀ t ts, get "grpcgateway-authorization" = t :: ts →
      getRequestorIdentityFromGrpcContext get = t) ∧
    (get "grpcgateway-authorization" = [] →
      ∀ t ts, get "bearer-token" = t :: ts →
        getRequestorIdentityFromGrpcContext get = t) ∧
    (get "grpcgateway-authorization" = [] → get "bearer-token" = [] →
      getRequestorIdentityFromGrpcContext get = "") := by
  refine ⟨?_, ?_, ?_⟩
  · intro t ts h
    unfold getRequestorIdentityFromGrpcContext requestorMetadataKeys
    unfold requestorIdentityLoop
    rw [h]
    rfl
  · intro h1 t ts h2
    unfold getRequestorIdentityFromGrpcContext requestorMetadataKeys
    unfold requestorIdentityLoop
    rw [h1]
    unfold requestorIdentityLoop
    rw [h2]
    rfl
  · intro h1 h2
    unfold getRequestorIdentityFromGrpcContext requestorMetadataKeys
    unfold requestorIdentityLoop
    rw [h1]
    unfold requestorIdentityLoop
    rw [h2]
    rfl

/-- Witness for C6: metadata carrying only a bearer token yields that token
as the identity. -/
theorem requestor_identity_extraction_witness :
    getRequestorIdentityFromGrpcContext
      (fun name => if name = "bearer-token" then ["tok-123"] else []) = "tok-123" :=
  (requestor_identity_extraction
    (fun name => if name = "bearer-token" then ["tok-123"] else [])).2.1
    rfl "tok-123" [] rfl

/-- Embeds the `errors.Is` classification of domain errors reaching
`convertDomainErrorToGrpc`: the two sentinel errors and everything else. -/
inductive DomainError
  | errNotAuthenticated
  | errNotAuthorized
  | other (detail : String)
  deriving DecidableEq, Repr

/-- Embeds the grpc status codes used by the boundary. -/
inductive GrpcCode
  | unauthenticated
  | permissionDenied
  | unknown
  deriving DecidableEq, Repr

/-- Embeds `status.Error(code, message)`. -/
structure GrpcStatus where
  code : GrpcCode
  message : String
  deriving DecidableEq, Repr

/-- Embeds `convertDomainErrorToGrpc`. -/
def convertDomainErrorToGrpc : DomainError → GrpcStatus
  | .errNotAuthenticated => ⟨.unauthenticated, "Anonymous access is not allowed."⟩
  | .errNotAuthorized => ⟨.permissionDenied, "Access denied."⟩
  | .other _ => ⟨.unknown, "Internal server error."⟩

/-- C7: ErrNotAuthenticated maps to Unauthenticated, ErrNotAuthorized to
PermissionDenied, and every other error to the one opaque Unknown status
whose generic message carries no internal detail. -/
theorem domain_error_to_grpc_mapping :
    convertDomainErrorToGrpc .errNotAuthenticated
      = ⟨.unauthenticated, "Anonymous access is not allowed."⟩ ∧
    convertDomainErrorToGrpc .errNotAuthorized
      = ⟨.permissionDenied, "Access denied."⟩ ∧
    ∀ e : DomainError, e ≠ .errNotAuthenticated → e ≠ .errNotAuthorized →
      convertDomainErrorToGrpc e = ⟨.unknown, "Internal server error."⟩ := by
  refine ⟨rfl, rfl, ?_⟩
  intro e h1 h2
  cases e with
  | errNotAuthenticated => exact absurd rfl h1
  | errNotAuthorized => exact absurd rfl h2
  | other d => rfl

/-- Witness for C7: a wrapped store failure with internal detail collapses to
the opaque Unknown status. -/
theorem domain_error_to_grpc_mapping_witness :
    convertDomainErrorToGrpc (.other "spicedb dial tcp refused")
      = ⟨.unknown, "Internal server error."⟩ :=
  domain_error_to_grpc_mapping.2.2 (.other "spicedb dial tcp refused")
    (by decide) (by decide)

/-- Embeds `core.SeatFilterType`. -/
inductive SeatFilterType
  | assigned
  | assignable
  deriving DecidableEq, Repr

/-- Embeds `core.GetSeatsRequest`: IncludeUsers and Filter are optional proto
fields (Go pointers). -/
structure GetSeatsRequest where
  orgId : String
  serviceId : String
  includeUsers : Option Bool
  filter : Option SeatFilterType
  deriving DecidableEq, Repr

/-- Embeds `application.GetSeatAssignmentRequest`. -/
structure GetSeatAssignmentRequest where
  requestor : String
  orgID : String
  serviceID : String
  includeUsers : Bool
  assigned : Bool
  deriving DecidableEq, Repr

/-- Embeds `core.GetSeatsUserRepresentation`. -/
structure GetSeatsUserRepresentation where
  displayName : String
  id : String
  assigned : Bool
  deriving DecidableEq, Repr

/-- Embeds `core.GetSeatsResponse`. -/
structure GetSeatsResponse where
  users : List GetSeatsUserRepresentation
  deriving DecidableEq, Repr

/-- Embeds the defaulting of the IncludeUsers field in `Server.GetSeats`:
an omitted field leaves the initial value true. -/
def getSeatsIncludeUsers (grpcReq : GetSeatsRequest) : Bool :=
  match grpcReq.includeUsers with
  | some b => b
  | none => true

/-- Embeds the defaulting and switch over the Filter field in
`Server.GetSeats`: an omitted field leaves the initial value true (assigned). -/
def getSeatsAssigned (grpcReq : GetSeatsRequest) : Bool :=
  match grpcReq.filter with
  | some .assigned => true
  | some .assignable => false
  | none => true

/-- Embeds the construction of the application request in `Server.GetSeats`,
with the request metadata abstracted as `get`. -/
def makeGetSeatAssignmentRequest (get : String → List String)
    (grpcReq : GetSeatsRequest) : GetSeatAssignmentRequest :=
  { requestor := getRequestorIdentityFromGrpcContext get
    orgID := grpcReq.orgId
    serviceID := grpcReq.serviceId
    includeUsers := getSeatsIncludeUsers grpcReq
    assigned := getSeatsAssigned grpcReq }

/-- Embeds `Server.GetSeats`, with the LicenseAppService call abstracted as
`getSeatAssignments` (its implementation is not among the sources); a service
error is returned as is, and on success every returned principal is rendered
with the Assigned field set to the request-level assigned flag. -/
def GetSeats (get : String → List String)
    (getSeatAssignments : GetSeatAssignmentRequest → Except DomainError (List Principal))
    (grpcReq : GetSeatsRequest) : Except DomainError GetSeatsResponse :=
  let req := makeGetSeatAssignmentRequest get grpcReq
  match getSeatAssignments req with
  | .error e => .error e
  | .ok principals =>
      .ok { users := principals.map (fun p =>
        { displayName := p.displayName
          id := p.id
          assigned := getSeatsAssigned grpcReq }) }

/-- C9: an omitted IncludeUsers field defaults to true, an omitted Filter
field defaults to the assigned filter, and every user representation of a
successful response carries the request-level filter constant in Assigned,
independent of the user. -/
theorem getSeats_defaults_and_assigned_flag (get : String → List String)
    (getSeatAssignments :
      GetSeatAssignmentRequest → Except DomainError (List Principal))
    (grpcReq : GetSeatsRequest) :
    (grpcReq.includeUsers = none →
      (makeGetSeatAssignmentRequest get grpcReq).includeUsers = true) ∧
    (grpcReq.filter = none →
      (makeGetSeatAssignmentRequest get grpcReq).assigned = true) ∧
    (∀ resp, GetSeats get getSeatAssignments grpcReq = .ok resp →
      ∀ u ∈ resp.users, u.assigned = getSeatsAssigned grpcReq) := by
  refine ⟨?_, ?_, ?_⟩
  · intro h
    simp [makeGetSeatAssignmentRequest, getSeatsIncludeUsers, h]
  · intro h
    simp [makeGetSeatAssignmentRequest, getSeatsAssigned, h]
  · intro resp hresp u hu
    unfold GetSeats at hresp
    cases hsvc : getSeatAssignments (makeGetSeatAssignmentRequest get grpcReq) with
    | error e =>
        simp only [hsvc] at hresp
        exact absurd hresp (by simp)
    | ok principals =>
        simp only [hsvc] at hresp
        injection hresp with hresp
        subst hresp
        simp only [List.mem_map] at hu
        obtain ⟨p, -, rfl⟩ := hu
        rfl

/-- Witness for C9: a request omitting both optional fields, served by a
one-principal service stub, yields a response whose single user carries
Assigned = true. -/
theorem getSeats_defaults_and_assigned_flag_witness :
    GetSeats (fun _ => ["tok"]) (fun _ => .ok [⟨"u1", "User One"⟩])
      { orgId := "o1", serviceId := "smarts",
        includeUsers := none, filter := none }
      = .ok { users := [⟨"User One", "u1", true⟩] } ∧
    ("User One" : String) = "User One" ∧
    (⟨"User One", "u1", true⟩ : GetSeatsUserRepresentation).assigned = true := by
  have h := (getSeats_defaults_and_assigned_flag (fun _ => ["tok"])
    (fun _ => .ok [⟨"u1", "User One"⟩])
    { orgId := "o1", serviceId := "smarts",
      includeUsers := none, filter := none }).2.2
    { users := [⟨"User One", "u1", true⟩] } rfl
      ⟨"User One", "u1", true⟩ (by simp)
  exact ⟨rfl, rfl, h⟩

/-! ## User-directory paging producer
(src: infrastructure/repository/userservice/UserServiceSubjectRepository.go) -/

/-- Embeds an element of `userRepositoryResponse` (id, status). -/
structure UserRecord where
  id : String
  status : String
  deriving DecidableEq, Repr

/-- The errors the producer sends on its error channel, with the external
error payloads abstracted to their provenance. -/
inductive ProducerError
  | invalidConfig
  | emptyUserFields (record : UserRecord)
  | serviceCall (page : Nat)
  | stoppedWithMorePages
  deriving DecidableEq, Repr

/-- Embeds the constant `assumeNextPageAvailableByDefaultIfError`. -/
def assumeNextPageAvailableByDefaultIfError : Bool := true

/-- Embeds `shouldContinueProcessingUsersPage`: true for every non-nil error. -/
def shouldContinueProcessingUsersPage (err : Option ProducerError) : Bool :=
  err.isSome

/-- Embeds `shouldFetchNextPage`. -/
def shouldFetchNextPage (anotherPageAvailable : Bool)
    (serviceCallErr pageProcessingErr : Option ProducerError) : Bool :=
  anotherPageAvailable && serviceCallErr.isNone && pageProcessingErr.isNone

/-- Embeds `strings.EqualFold` on the ASCII statuses in play. -/
def equalFold (a b : String) : Bool := a.toLower == b.toLower

/-- Embeds the construction of a `domain.Subject` from one user record inside
`processUsersResponsePage`. -/
def mkSubject (user : UserRecord) : Subject :=
  { subjectID := user.id, enabled := equalFold user.status "enabled" }

/-- Embeds `processUsersResponsePage`: the returned triple is the sequence of
subjects sent, the sequence of errors sent, and the returned page-processing
error. -/
def processUsersResponsePage : List UserRecord →
    List Subject × List ProducerError × Option ProducerError
  | [] => ([], [], none)
  | user :: rest =>
    if user.id == "" || user.status == "" then
      let err := ProducerError.emptyUserFields user
      if !shouldContinueProcessingUsersPage (some err) then
        ([], [err], some err)
      else
        let res := processUsersResponsePage rest
        (mkSubject user :: res.1, err :: res.2.1, res.2.2)
    else
      let res := processUsersResponsePage rest
      (mkSubject user :: res.1, res.2.1, res.2.2)

/-- Closed form of `processUsersResponsePage`: every record yields a subject,
every record with an empty id or status yields an error, and the returned
page-processing error is always nil. -/
theorem processUsersResponsePage_eq (records : List UserRecord) :
    processUsersResponsePage records =
      (records.map mkSubject,
       (records.filter (fun u => u.id == "" || u.status == "")).map
         ProducerError.emptyUserFields,
       none) := by
  induction records with
  | nil => rfl
  | cons user rest ih =>
      unfold processUsersResponsePage
      by_cases h : (user.id == "" || user.status == "") = true
      · simp [h, ih, shouldContinueProcessingUsersPage, List.filter_cons]
      · simp only [Bool.not_eq_true] at h
        simp [h, ih, List.filter_cons]

/-- C10: a record with an empty id or status makes the page processor send an
error yet still send a Subject for that record and process the rest of the
page; `shouldContinueProcessingUsersPage` is true on every non-nil error; the
page completes with a nil processing error, leaving the next-page decision to
page fullness and the service-call error alone. -/
theorem processUsersResponsePage_empty_fields :
    (∀ records : List UserRecord,
      processUsersResponsePage records =
        (records.map mkSubject,
         (records.filter (fun u => u.id == "" || u.status == "")).map
           ProducerError.emptyUserFields,
         none)) ∧
    (∀ e : ProducerError, shouldContinueProcessingUsersPage (some e) = true) ∧
    (∀ (records : List UserRecord) (avail : Bool) (callErr : Option ProducerError),
      shouldFetchNextPage avail callErr (processUsersResponsePage records).2.2
        = shouldFetchNextPage avail callErr none) :=
  ⟨processUsersResponsePage_eq, fun _ => rfl,
   fun records _ _ => by rw [processUsersResponsePage_eq]⟩

/-- Outcome of one paged user-service call, abstracting the HTTP POST and
JSON layers of `doPagedUserServiceCall` into its four return shapes:
`success` is a decoded non-nil slice with nil error; `partialDecode` is a
non-nil slice together with an unmarshalling error (a JSON type error fills
the slice as far as it got); `nilResponse` is a nil slice with nil error (an
HTTP 200 whose body is the JSON literal null); `failure` is a nil slice with
an error (marshalling, transport, or a JSON syntax error). -/
inductive PageCallOutcome
  | success (records : List UserRecord)
  | partialDecode (records : List UserRecord)
  | nilResponse
  | failure
  deriving DecidableEq, Repr

/-- Embeds `doPagedUserServiceCall` over the abstract service `env`: with a
non-nil slice, another page is available exactly when the page is full
(MaxResults == length); with a nil slice — error or not — the default
assumption `assumeNextPageAvailableByDefaultIfError` applies; error paths
also send their error. -/
def doPagedUserServiceCall (env : Nat → PageCallOutcome) (pageSize page : Nat) :
    Option (List UserRecord) × Bool × Option ProducerError :=
  match env page with
  | .success records => (some records, pageSize == records.length, none)
  | .partialDecode records =>
      (some records, pageSize == records.length, some (.serviceCall page))
  | .nilResponse => (none, assumeNextPageAvailableByDefaultIfError, none)
  | .failure =>
      (none, assumeNextPageAvailableByDefaultIfError, some (.serviceCall page))

/-- What one `fetchPageOfUsers` call produced: the subjects and errors sent
on the channels, and the triple driving `shouldFetchNextPage`. -/
structure PageFetchResult where
  subjectsSent : List Subject
  errorsSent : List ProducerError
  nextPageAvailable : Bool
  serviceCallErr : Option ProducerError
  pageProcessingErr : Option ProducerError
  deriving DecidableEq, Repr

/-- Embeds `fetchPageOfUsers`: the page is processed only when the response
slice is non-nil (so a partially decoded page is still processed, after its
decode error). -/
def fetchPageOfUsers (env : Nat → PageCallOutcome) (pageSize page : Nat) :
    PageFetchResult :=
  match doPagedUserServiceCall env pageSize page with
  | (some records, nextAvail, callErr) =>
      let res := processUsersResponsePage records
      { subjectsSent := res.1
        errorsSent := (match callErr with | some e => [e] | none => []) ++ res.2.1
        nextPageAvailable := nextAvail
        serviceCallErr := callErr
        pageProcessingErr := res.2.2 }
  | (none, nextAvail, callErr) =>
      { subjectsSent := []
        errorsSent := match callErr with | some e => [e] | none => []
        nextPageAvailable := nextAvail
        serviceCallErr := callErr
        pageProcessingErr := none }

/-- What a `GetByOrgID` call produced: everything sent on the two channels
and received by a draining consumer, whether each channel was closed, and
how many pages were fetched. -/
structure ProducerOutput where
  subjects : List Subject
  errors : List ProducerError
  subChanClosed : Bool
  errChanClosed : Bool
  pagesFetched : Nat
  deriving DecidableEq, Repr

/-- The error-channel contents after one loop iteration over page `page`:
the page's errors, followed by the stopped-with-more-pages message when the
loop gives up although another page is available. -/
def producerLoopErrs (env : Nat → PageCallOutcome) (pageSize page : Nat)
    (errs : List ProducerError) : List ProducerError :=
  if (fetchPageOfUsers env pageSize page).nextPageAvailable
      && !(shouldFetchNextPage
        (fetchPageOfUsers env pageSize page).nextPageAvailable
        (fetchPageOfUsers env pageSize page).serviceCallErr
        (fetchPageOfUsers env pageSize page).pageProcessingErr) then
    errs ++ (fetchPageOfUsers env pageSize page).errorsSent
      ++ [.stoppedWithMorePages]
  else
    errs ++ (fetchPageOfUsers env pageSize page).errorsSent

/-- Embeds the page loop of the `GetByOrgID` goroutine, with explicit fuel
bounding the number of iterations (the Go loop is unbounded): exhausted fuel
returns the producer still running, channels not yet closed. -/
def producerLoop (env : Nat → PageCallOutcome) (pageSize : Nat) :
    Nat → Nat → List Subject → List ProducerError → ProducerOutput
  | 0, page, subs, errs =>
      { subjects := subs, errors := errs,
        subChanClosed := false, errChanClosed := false, pagesFetched := page }
  | fuel + 1, page, subs, errs =>
      if shouldFetchNextPage (fetchPageOfUsers env pageSize page).nextPageAvailable
          (fetchPageOfUsers env pageSize page).serviceCallErr
          (fetchPageOfUsers env pageSize page).pageProcessingErr then
        producerLoop env pageSize fuel (page + 1)
          (subs ++ (fetchPageOfUsers env pageSize page).subjectsSent)
          (producerLoopErrs env pageSize page errs)
      else
        { subjects := subs ++ (fetchPageOfUsers env pageSize page).subjectsSent,
          errors := producerLoopErrs env pageSize page errs,
          subChanClosed := true, errChanClosed := true,
          pagesFetched := page + 1 }

/-- One unfolding of the loop at positive fuel. -/
theorem producerLoop_step (env : Nat → PageCallOutcome) (pageSize fuel page : Nat)
    (subs : List Subject) (errs : List ProducerError) :
    producerLoop env pageSize (fuel + 1) page subs errs =
      if shouldFetchNextPage (fetchPageOfUsers env pageSize page).nextPageAvailable
          (fetchPageOfUsers env pageSize page).serviceCallErr
          (fetchPageOfUsers env pageSize page).pageProcessingErr then
        producerLoop env pageSize fuel (page + 1)
          (subs ++ (fetchPageOfUsers env pageSize page).subjectsSent)
          (producerLoopErrs env pageSize page errs)
      else
        { subjects := subs ++ (fetchPageOfUsers env pageSize page).subjectsSent,
          errors := producerLoopErrs env pageSize page errs,
          subChanClosed := true, errChanClosed := true,
          pagesFetched := page + 1 } := rfl

/-- Embeds `GetByOrgID`: the config validation (PageSize > 0) guards the
goroutine.  On validation failure the Go code sends the config error on the
unbuffered error channel before the channels are returned to any consumer,
so the send blocks forever: nothing is ever delivered, neither channel is
ever closed, and no page is fetched — which is what the returned output
records. -/
def GetByOrgID (env : Nat → PageCallOutcome) (pageSize fuel : Nat) :
    ProducerOutput :=
  if 0 < pageSize then
    producerLoop env pageSize fuel 0 [] []
  else
    { subjects := [], errors := [],
      subChanClosed := false, errChanClosed := false, pagesFetched := 0 }

/-- The next-page decision after fetching page `p` holds exactly when the
service call was error-free and yielded either a full page or a nil (JSON
null) response. -/
theorem shouldFetch_iff_full (env : Nat → PageCallOutcome) (pageSize p : Nat) :
    shouldFetchNextPage (fetchPageOfUsers env pageSize p).nextPageAvailable
        (fetchPageOfUsers env pageSize p).serviceCallErr
        (fetchPageOfUsers env pageSize p).pageProcessingErr = true ↔
      (∃ rs, env p = .success rs ∧ rs.length = pageSize) ∨
        env p = .nilResponse := by
  unfold fetchPageOfUsers doPagedUserServiceCall
  cases henv : env p with
  | success records =>
      dsimp only
      rw [processUsersResponsePage_eq]
      simp only [shouldFetchNextPage, Option.isNone_none, Bool.and_true,
        beq_iff_eq]
      constructor
      · intro h
        exact Or.inl ⟨records, rfl, h.symm⟩
      · rintro (⟨rs, hrs, hlen⟩ | hnil)
        · injection hrs with hrs
          subst hrs
          exact hlen.symm
        · exact PageCallOutcome.noConfusion hnil
  | partialDecode records =>
      dsimp only
      simp only [shouldFetchNextPage, Option.isNone_some, Bool.and_false,
        Bool.false_and, Bool.false_eq_true, false_iff]
      rintro (⟨rs, hrs, -⟩ | hnil)
      · exact PageCallOutcome.noConfusion hrs
      · exact PageCallOutcome.noConfusion hnil
  | nilResponse =>
      dsimp only
      constructor
      · intro h
        exact Or.inr rfl
      · intro h
        rfl
  | failure =>
      dsimp only
      constructor
      · intro h
        exact Bool.noConfusion (show (false : Bool) = true from h)
      · rintro (⟨rs, hrs, -⟩ | hnil)
        · exact PageCallOutcome.noConfusion hrs
        · exact PageCallOutcome.noConfusion hnil

/-- Loop invariant for the producer: every page strictly before the last
fetched one was error-free and either full or a nil response; the two
channels close together; and the channels stay open only when the fuel runs
out. -/
theorem producerLoop_invariant (env : Nat → PageCallOutcome) (pageSize : Nat) :
    ∀ (fuel page : Nat) (subs : List Subject) (errs : List ProducerError),
      (∀ p, page ≤ p →
        p + 1 < (producerLoop env pageSize fuel page subs errs).pagesFetched →
        (∃ rs, env p = .success rs ∧ rs.length = pageSize) ∨
          env p = .nilResponse) ∧
      ((producerLoop env pageSize fuel page subs errs).subChanClosed =
        (producerLoop env pageSize fuel page subs errs).errChanClosed) ∧
      ((producerLoop env pageSize fuel page subs errs).subChanClosed = false →
        (producerLoop env pageSize fuel page subs errs).pagesFetched
          = page + fuel) := by
  intro fuel
  induction fuel with
  | zero =>
      intro page subs errs
      refine ⟨?_, rfl, fun _ => rfl⟩
      intro p hle hlt
      have hlt' : p + 1 < page := hlt
      exact absurd hlt' (by omega)
  | succ fuel ih =>
      intro page subs errs
      by_cases hsf : shouldFetchNextPage
          (fetchPageOfUsers env pageSize page).nextPageAvailable
          (fetchPageOfUsers env pageSize page).serviceCallErr
          (fetchPageOfUsers env pageSize page).pageProcessingErr = true
      · rw [producerLoop_step env pageSize fuel page subs errs, if_pos hsf]
        obtain ⟨ih1, ih2, ih3⟩ := ih (page + 1)
          (subs ++ (fetchPageOfUsers env pageSize page).subjectsSent)
          (producerLoopErrs env pageSize page errs)
        refine ⟨?_, ih2, fun h => by rw [ih3 h]; omega⟩
        intro p hle hlt
        rcases Nat.eq_or_lt_of_le hle with heq | hlt'
        · subst heq
          exact (shouldFetch_iff_full env pageSize page).mp hsf
        · exact ih1 p hlt' hlt
      · rw [producerLoop_step env pageSize fuel page subs errs, if_neg hsf]
        refine ⟨?_, rfl, ?_⟩
        · intro p hle hlt
          have hlt' : p + 1 < page + 1 := hlt
          exact absurd hlt' (by omega)
        · intro h
          have h' : (true : Bool) = false := h
          exact absurd h' (by simp)

/-- An always-null directory service: every page comes back as an HTTP 200
whose body is the JSON literal null — a nil slice and a nil error. -/
def nullBodyEnv : Nat → PageCallOutcome := fun _ => .nilResponse

/-- A directory service returning one full page (for PageSize 1) and then an
empty page. -/
def fullThenShortEnv : Nat → PageCallOutcome :=
  fun p => if p = 0 then .success [⟨"1", "enabled"⟩] else .success []

/-- C8 counterexample: with PageSize 1 against the always-null service, the
producer requests page 1 after page 0 — yet no error at all was sent on that
run and page 0 was not a full page (it was no decoded page at all), refuting
the claim that a next page is requested only after a full, error-free page. -/
theorem producer_paging_full_page_counterexample :
    0 + 1 < (GetByOrgID nullBodyEnv 1 2).pagesFetched ∧
    (GetByOrgID nullBodyEnv 1 2).errors = [] ∧
    ¬ ∃ rs, nullBodyEnv 0 = .success rs ∧ rs.length = 1 := by
  refine ⟨by decide, by decide, ?_⟩
  rintro ⟨rs, hrs, -⟩
  exact PageCallOutcome.noConfusion hrs

/-- C8 amended: `shouldFetchNextPage` demands an available next page and
error-free service call and page processing; in every `GetByOrgID` run, any
page with a successor page was error-free and either full (exactly PageSize
results) or a nil (JSON null) response, for which the source assumes another
page by default — so the first service-call error still ends the fetching;
the two channels always close together, staying open only when the goroutine
never finishes: exhausted modelling fuel, or the invalid-config path, which
blocks on its unbuffered error-channel send before closing anything. -/
theorem producer_paging_stops_on_error (env : Nat → PageCallOutcome)
    (pageSize fuel : Nat) :
    (∀ (a : Bool) (s e : Option ProducerError),
      shouldFetchNextPage a s e = true ↔ a = true ∧ s = none ∧ e = none) ∧
    (∀ p, p + 1 < (GetByOrgID env pageSize fuel).pagesFetched →
      (∃ rs, env p = .success rs ∧ rs.length = pageSize) ∨
        env p = .nilResponse) ∧
    (∀ p rs, env p = .failure ∨ env p = .partialDecode rs →
      (GetByOrgID env pageSize fuel).pagesFetched ≤ p + 1) ∧
    ((GetByOrgID env pageSize fuel).subChanClosed =
      (GetByOrgID env pageSize fuel).errChanClosed) ∧
    (0 < pageSize → (GetByOrgID env pageSize fuel).subChanClosed = false →
      (GetByOrgID env pageSize fuel).pagesFetched = fuel) ∧
    (pageSize = 0 → GetByOrgID env pageSize fuel =
      { subjects := [], errors := [], subChanClosed := false,
        errChanClosed := false, pagesFetched := 0 }) := by
  have hiff : ∀ (a : Bool) (s e : Option ProducerError),
      shouldFetchNextPage a s e = true ↔ a = true ∧ s = none ∧ e = none := by
    intro a s e
    unfold shouldFetchNextPage
    cases a <;> cases s <;> cases e <;> simp
  have hfull : ∀ p, p + 1 < (GetByOrgID env pageSize fuel).pagesFetched →
      (∃ rs, env p = .success rs ∧ rs.length = pageSize) ∨
        env p = .nilResponse := by
    unfold GetByOrgID
    by_cases hps : 0 < pageSize
    · rw [if_pos hps]
      intro p h
      exact (producerLoop_invariant env pageSize fuel 0 [] []).1 p
        (Nat.zero_le p) h
    · rw [if_neg hps]
      intro p h
      have h' : p + 1 < 0 := h
      exact absurd h' (by omega)
  refine ⟨hiff, hfull, ?_, ?_, ?_, ?_⟩
  · intro p rs hbad
    by_contra hgt
    push_neg at hgt
    rcases hfull p hgt with ⟨qs, hqs, -⟩ | hnil
    · rcases hbad with hb | hb <;> rw [hb] at hqs <;>
        exact PageCallOutcome.noConfusion hqs
    · rcases hbad with hb | hb <;> rw [hb] at hnil <;>
        exact PageCallOutcome.noConfusion hnil
  · unfold GetByOrgID
    by_cases hps : 0 < pageSize
    · rw [if_pos hps]
      exact (producerLoop_invariant env pageSize fuel 0 [] []).2.1
    · rw [if_neg hps]
  · intro hps
    unfold GetByOrgID
    rw [if_pos hps]
    intro h
    have := (producerLoop_invariant env pageSize fuel 0 [] []).2.2 h
    omega
  · intro hps
    unfold GetByOrgID
    rw [if_neg (by omega)]

/-- Witness for the amended C8: a full page certifies its successor fetch; a
failing service stops after one page; the always-null service leaves the
producer running with as many pages fetched as it had fuel for. -/
theorem producer_paging_stops_on_error_witness :
    ((∃ rs, fullThenShortEnv 0 = .success rs ∧ rs.length = 1) ∨
      fullThenShortEnv 0 = .nilResponse) ∧
    (GetByOrgID (fun _ => PageCallOutcome.failure) 1 5).pagesFetched ≤ 0 + 1 ∧
    (GetByOrgID nullBodyEnv 1 2).pagesFetched = 2 :=
  ⟨(producer_paging_stops_on_error fullThenShortEnv 1 5).2.1 0 (by decide),
   (producer_paging_stops_on_error
      (fun _ => PageCallOutcome.failure) 1 5).2.2.1 0 [] (Or.inl rfl),
   (producer_paging_stops_on_error nullBodyEnv 1 2).2.2.2.2.1
      (by decide) (by decide)⟩
